import Mathlib

/-!
Verification of the Allegro hand ZMQ JSON command parser
(`cpp/src/allegroZmqJsonParser.cpp` together with its header and the test
mock `cpp/tests/mock_bhand.h`).

Modelling conventions:
* C++ `double` is modelled by `FloatVal`: an exact rational plus the IEEE
  special values NaN / +inf / -inf.  Every numeric value that reaches the
  parser comes from a JSON text document, hence is a finite decimal, so
  exact rational arithmetic agrees with the C++ behaviour on all the
  inputs considered here; the special values are kept so that the
  `isnan`/`isinf` checks of the validators are embedded as written.
* The vendored JSON library (nlohmann) is out of scope: the text-level
  parse `nlohmann::json::parse` is represented by its outcome, a value of
  type `Except String Json` — `.ok j` for a well-formed document `j`,
  `.error msg` for a malformed document rejected with diagnostic `msg`
  (nlohmann throws `json::exception`).
* C++ exceptions are modelled by `Except CppExc`; `CppExc.jsonExc` stands
  for `nlohmann::json::exception`, `CppExc.runtimeError` for
  `std::runtime_error`, and `CppExc.what` for `e.what()`.
* The `BHand` pointer held by the parser is an `Option MockBHand`
  (compile-time alias `using BHand = MockBHand` in the tests); pointer
  writes through `pBHand->` are modelled by updating the mock stored in
  the parser state.  The mock's fixed 16/4-element arrays are functions
  out of `Fin 16` / `Fin 4`; a `double*` argument read at indices `0..15`
  is modelled by `List.getD` with the vector the caller passes.
-/

/-- A parsed JSON document (the nlohmann DOM restricted to what the
parser consumes). -/
inductive Json where
  | null : Json
  | bool (b : Bool) : Json
  | num (q : ℚ) : Json
  | str (s : String) : Json
  | arr (elems : List Json) : Json
  | obj (fields : List (String × Json)) : Json
deriving Repr

/-- A C++ `double`: exact rational or an IEEE special value. -/
inductive FloatVal where
  | nan : FloatVal
  | inf : FloatVal
  | ninf : FloatVal
  | fin (q : ℚ) : FloatVal
deriving DecidableEq, Repr

/-- Embeds `std::isnan`. -/
def FloatVal.isnan : FloatVal → Bool
  | .nan => true
  | _ => false

/-- Embeds `std::isinf`. -/
def FloatVal.isinf : FloatVal → Bool
  | .inf => true
  | .ninf => true
  | _ => false

/-- IEEE `<` on doubles (false whenever an operand is NaN). -/
def FloatVal.flt : FloatVal → FloatVal → Bool
  | .nan, _ => false
  | _, .nan => false
  | .ninf, .ninf => false
  | .ninf, _ => true
  | _, .ninf => false
  | .inf, _ => false
  | _, .inf => true
  | .fin a, .fin b => decide (a < b)

/-- IEEE `>` on doubles. -/
def FloatVal.fgt (x y : FloatVal) : Bool := FloatVal.flt y x

/-- Embeds `std::abs` on doubles. -/
def FloatVal.fabs : FloatVal → FloatVal
  | .nan => .nan
  | .inf => .inf
  | .ninf => .inf
  | .fin q => .fin |q|

/-- Sign used for the IEEE product of special values. -/
def FloatVal.sign : FloatVal → Int
  | .nan => 0
  | .inf => 1
  | .ninf => -1
  | .fin q => if 0 < q then 1 else if q < 0 then -1 else 0

/-- IEEE subtraction (exact on finite operands). -/
def FloatVal.fsub : FloatVal → FloatVal → FloatVal
  | .fin a, .fin b => .fin (a - b)
  | .nan, _ => .nan
  | _, .nan => .nan
  | .inf, .inf => .nan
  | .ninf, .ninf => .nan
  | .inf, _ => .inf
  | .ninf, _ => .ninf
  | _, .inf => .ninf
  | _, .ninf => .inf

/-- IEEE multiplication (exact on finite operands). -/
def FloatVal.fmul (x y : FloatVal) : FloatVal :=
  match x, y with
  | .fin a, .fin b => .fin (a * b)
  | .nan, _ => .nan
  | _, .nan => .nan
  | _, _ =>
    if x.sign * y.sign = 1 then .inf
    else if x.sign * y.sign = -1 then .ninf
    else .nan

/-- A C++ exception as seen by the catch sites of the parser:
`jsonExc` is `nlohmann::json::exception`, `runtimeError` is
`std::runtime_error`. -/
inductive CppExc where
  | jsonExc (msg : String) : CppExc
  | runtimeError (msg : String) : CppExc
deriving DecidableEq, Repr

/-- Embeds `e.what()`. -/
def CppExc.what : CppExc → String
  | .jsonExc m => m
  | .runtimeError m => m

/-- Embeds `j.contains(key)` followed by `j[key]` — field lookup, absent unless
`j` is an object holding the key. -/
def Json.find : Json → String → Option Json
  | .obj fields, key => fields.lookup key
  | _, _ => none

/-- Embeds `value.get<int>()` — throws a `json::exception` unless the value is a
number; a floating value is truncated toward zero as by `static_cast`
(`q.num.tdiv q.den` is exactly truncation toward zero on a reduced
fraction). -/
def Json.getInt : Json → Except CppExc Int
  | .num q => .ok (q.num.tdiv q.den)
  | _ => .error (.jsonExc "type must be number")

/-- Embeds `value.get<double>()` — throws a `json::exception` unless the value
is a number. -/
def Json.getDouble : Json → Except CppExc ℚ
  | .num q => .ok q
  | _ => .error (.jsonExc "type must be number")

/-- Embeds `MAX_DOF` from `rDeviceAllegroHandCANDef.h` (16 joints; the value the
mock and every fixed-size array in the parser use). -/
def MAX_DOF : Nat := 16

/-- Embeds `struct AllegroJsonCommand` (header lines 462-482). -/
structure AllegroJsonCommand where
  motion_type : Int
  joint_positions : List FloatVal
  desired_positions : List FloatVal
  grasping_forces : List FloatVal
  fingertip_positions : List (List FloatVal)
  object_displacement : List FloatVal
  time_interval : FloatVal
  kp_gains : List FloatVal
  kd_gains : List FloatVal
deriving DecidableEq, Repr

/-- The default constructor of `AllegroJsonCommand`. -/
def AllegroJsonCommand.default : AllegroJsonCommand where
  motion_type := 0
  joint_positions := List.replicate 16 (.fin 0)
  desired_positions := List.replicate 16 (.fin 0)
  grasping_forces := List.replicate 4 (.fin 0)
  fingertip_positions := []
  object_displacement := []
  time_interval := .fin (mkRat 3 1000)
  kp_gains := List.replicate 16 (.fin 0)
  kd_gains := List.replicate 16 (.fin 0)

/-- Embeds `enum AllegroZmqResponseType`. -/
inductive AllegroZmqResponseType where
  | RESP_SUCCESS : AllegroZmqResponseType
  | RESP_ERROR : AllegroZmqResponseType
  | RESP_DATA : AllegroZmqResponseType
  | RESP_STATUS : AllegroZmqResponseType
deriving DecidableEq, Repr

/-- Embeds `struct AllegroZmqResponse` (header lines 406-457). -/
structure AllegroZmqResponse where
  type : AllegroZmqResponseType
  success : Bool
  message : String
  qpos_measured : List FloatVal
  tau_commanded : List FloatVal
  qpos_commanded : List FloatVal
  fingertip_x : List FloatVal
  fingertip_y : List FloatVal
  fingertip_z : List FloatVal
  grasp_force_x : List FloatVal
  grasp_force_y : List FloatVal
  grasp_force_z : List FloatVal
  hand_type : Int
  time_interval : FloatVal
  motion_type : Int
  data : List FloatVal
deriving DecidableEq, Repr

/-- The two-argument `AllegroZmqResponse` constructor: every array field
resized to its nominal length filled with `0.0`. -/
def AllegroZmqResponse.mkDefault (t : AllegroZmqResponseType) (s : Bool) :
    AllegroZmqResponse where
  type := t
  success := s
  message := ""
  qpos_measured := List.replicate 16 (.fin 0)
  tau_commanded := List.replicate 16 (.fin 0)
  qpos_commanded := List.replicate 16 (.fin 0)
  fingertip_x := List.replicate 4 (.fin 0)
  fingertip_y := List.replicate 4 (.fin 0)
  fingertip_z := List.replicate 4 (.fin 0)
  grasp_force_x := List.replicate 4 (.fin 0)
  grasp_force_y := List.replicate 4 (.fin 0)
  grasp_force_z := List.replicate 4 (.fin 0)
  hand_type := 0
  time_interval := .fin (mkRat 3 1000)
  motion_type := 0
  data := []

/-- Embeds `AllegroZmqJsonParser::createErrorResponse`. -/
def createErrorResponse (message : String) : AllegroZmqResponse :=
  { AllegroZmqResponse.mkDefault .RESP_ERROR false with message := message }

/-- Embeds `AllegroZmqJsonParser::createSuccessResponse`. -/
def createSuccessResponse (message : String) (data : List FloatVal) :
    AllegroZmqResponse :=
  { AllegroZmqResponse.mkDefault .RESP_SUCCESS true with
      message := message, data := data }

/-- Embeds `MockBHand` (tests/mock_bhand.h): the in-memory hand-control session.
Fixed-size vectors are functions out of `Fin 16` / `Fin 4`. -/
structure MockBHand where
  current_motion_type : Int
  joint_positions : Fin 16 → FloatVal
  desired_positions : Fin 16 → FloatVal
  joint_torques : Fin 16 → FloatVal
  grasping_forces : Fin 4 → FloatVal
  kp_gains : Fin 16 → FloatVal
  kd_gains : Fin 16 → FloatVal
  time_interval : FloatVal
deriving DecidableEq

/-- The `MockBHand` constructor: zeros everywhere except gains
`kp = 1.0`, `kd = 0.1` and time interval `0.003`. -/
def MockBHand.init : MockBHand where
  current_motion_type := 0
  joint_positions := fun _ => .fin 0
  desired_positions := fun _ => .fin 0
  joint_torques := fun _ => .fin 0
  grasping_forces := fun _ => .fin 0
  kp_gains := fun _ => .fin 1
  kd_gains := fun _ => .fin (mkRat 1 10)
  time_interval := .fin (mkRat 3 1000)

/-- Embeds `MockBHand::SetMotionType`. -/
def MockBHand.SetMotionType (b : MockBHand) (motionType : Int) : MockBHand :=
  { b with current_motion_type := motionType }

/-- Embeds `MockBHand::SetJointPosition` (reads `q[0..15]`). -/
def MockBHand.SetJointPosition (b : MockBHand) (q : Fin 16 → FloatVal) : MockBHand :=
  { b with joint_positions := q }

/-- Embeds `MockBHand::SetJointDesiredPosition` (reads `q_des[0..15]`). -/
def MockBHand.SetJointDesiredPosition (b : MockBHand) (q_des : Fin 16 → FloatVal) :
    MockBHand :=
  { b with desired_positions := q_des }

/-- Embeds `MockBHand::SetGainsEx`. -/
def MockBHand.SetGainsEx (b : MockBHand) (kp kd : Fin 16 → FloatVal) : MockBHand :=
  { b with kp_gains := kp, kd_gains := kd }

/-- Embeds `MockBHand::SetGraspingForce` (reads `forces[0..3]`). -/
def MockBHand.SetGraspingForce (b : MockBHand) (forces : Fin 4 → FloatVal) : MockBHand :=
  { b with grasping_forces := forces }

/-- Embeds `MockBHand::SetTimeInterval`. -/
def MockBHand.SetTimeInterval (b : MockBHand) (dt : FloatVal) : MockBHand :=
  { b with time_interval := dt }

/-- Embeds `MockBHand::GetJointTorque`. -/
def MockBHand.GetJointTorque (b : MockBHand) : Fin 16 → FloatVal :=
  b.joint_torques

/-- Embeds `MockBHand::UpdateControl`: for every joint,
`joint_torques[i] = kp_gains[i] * (desired_positions[i] - joint_positions[i])`. -/
def MockBHand.UpdateControl (b : MockBHand) (_time : FloatVal) : MockBHand :=
  { b with joint_torques :=
      fun i => (b.kp_gains i).fmul ((b.desired_positions i).fsub (b.joint_positions i)) }

/-- Reading a `double*` backed by a `std::vector<double>` at indices
`0..n-1`: the callers below always pass vectors of exactly the length
read, so the default is never taken. -/
def listToVec (n : Nat) (l : List FloatVal) : Fin n → FloatVal :=
  fun i => l.getD i.val (.fin 0)

/-- The parser object `AllegroZmqJsonParser` together with the
`BHand` instance its `pBHand` pointer designates. -/
structure AllegroZmqJsonParser where
  pBHand : Option MockBHand
  currentTime : FloatVal
  currentQ : List FloatVal
  desiredQ : List FloatVal
  currentTau : List FloatVal
deriving DecidableEq

/-- The `AllegroZmqJsonParser` constructor (cpp lines 8-13). -/
def AllegroZmqJsonParser.construct (pBHand : Option MockBHand) : AllegroZmqJsonParser where
  pBHand := pBHand
  currentTime := .fin 0
  currentQ := List.replicate MAX_DOF (.fin 0)
  desiredQ := List.replicate MAX_DOF (.fin 0)
  currentTau := List.replicate MAX_DOF (.fin 0)

/-- Embeds `AllegroZmqJsonParser::isHandReady`. -/
def AllegroZmqJsonParser.isHandReady (p : AllegroZmqJsonParser) : Bool :=
  p.pBHand.isSome

/-- The loop body of `jsonArrayToVector`: a numeric element is taken as
is, anything else becomes `0.0`. -/
def jsonElemToFloat : Json → FloatVal
  | .num q => .fin q
  | _ => .fin 0

/-- Embeds `std::vector::resize(n, 0.0)`: truncate or zero-pad to length `n`. -/
def cppResize (v : List FloatVal) (n : Nat) : List FloatVal :=
  v.take n ++ List.replicate (n - v.length) (.fin 0)

/-- Embeds `AllegroZmqJsonParser::jsonArrayToVector` (cpp lines 209-239). -/
def jsonArrayToVector (jsonArray : Json) (expectedSize : Int) :
    Except CppExc (List FloatVal) :=
  match jsonArray with
  | .null =>
    .ok (if 0 < expectedSize then List.replicate expectedSize.toNat (.fin 0) else [])
  | .arr elems =>
    let result := elems.map jsonElemToFloat
    if 0 < expectedSize ∧ result.length ≠ expectedSize.toNat then
      .ok (cppResize result expectedSize.toNat)
    else
      .ok result
  | _ => .error (.runtimeError "Expected JSON array")

/-- Embeds `AllegroZmqJsonParser::json2DArrayToVector` (cpp lines 242-264):
non-array rows are skipped, non-numeric entries become `0.0`. -/
def json2DArrayToVector (jsonArray : Json) : List (List FloatVal) :=
  match jsonArray with
  | .arr rows =>
    rows.filterMap fun row =>
      match row with
      | .arr elems => some (elems.map jsonElemToFloat)
      | _ => none
  | _ => []

/-- The body of the `try` block of
`AllegroZmqJsonParser::parseJsonCommand` (cpp lines 94-144), applied to
an already text-parsed document. -/
def parseJsonCommandCore (j : Json) : Except CppExc AllegroJsonCommand := do
  let cmd := AllegroJsonCommand.default
  let cmd ← match j.find "motion_type" with
    | some v => do pure { cmd with motion_type := (← v.getInt) }
    | none => pure cmd
  let cmd ← match j.find "joint_positions" with
    | some v => do pure { cmd with joint_positions := (← jsonArrayToVector v 16) }
    | none => pure cmd
  let cmd ← match j.find "desired_positions" with
    | some v => do pure { cmd with desired_positions := (← jsonArrayToVector v 16) }
    | none => pure cmd
  let cmd ← match j.find "grasping_forces" with
    | some v => do pure { cmd with grasping_forces := (← jsonArrayToVector v 4) }
    | none => pure cmd
  let cmd := match j.find "fingertip_positions" with
    | some v => { cmd with fingertip_positions := json2DArrayToVector v }
    | none => cmd
  let cmd ← match j.find "object_displacement" with
    | some v => do pure { cmd with object_displacement := (← jsonArrayToVector v (-1)) }
    | none => pure cmd
  let cmd ← match j.find "time_interval" with
    | some v => do pure { cmd with time_interval := FloatVal.fin (← v.getDouble) }
    | none => pure cmd
  let cmd ← match j.find "kp_gains" with
    | some v => do pure { cmd with kp_gains := (← jsonArrayToVector v 16) }
    | none => pure cmd
  let cmd ← match j.find "kd_gains" with
    | some v => do pure { cmd with kd_gains := (← jsonArrayToVector v 16) }
    | none => pure cmd
  pure cmd

/-- Embeds `AllegroZmqJsonParser::parseJsonCommand`: the text-level parse result
feeds the `try` block; a `nlohmann::json::exception` (parse error or
`get<>` type error) is re-thrown as
`std::runtime_error("JSON parse error: " + e.what())`, while the
`std::runtime_error` thrown by `jsonArrayToVector` passes through. -/
def parseJsonCommand (input : Except String Json) : Except CppExc AllegroJsonCommand :=
  let inner : Except CppExc AllegroJsonCommand :=
    match input with
    | .error msg => .error (.jsonExc msg)
    | .ok j => parseJsonCommandCore j
  match inner with
  | .error (.jsonExc m) => .error (.runtimeError ("JSON parse error: " ++ m))
  | other => other

/-- Embeds `AllegroZmqJsonParser::validateJsonCommand` (cpp lines 153-206). -/
def validateJsonCommand (cmd : AllegroJsonCommand) : Bool :=
  if cmd.motion_type < 0 ∨ 14 ≤ cmd.motion_type then false
  else if cmd.joint_positions.length ≠ 16 then false
  else if cmd.desired_positions.length ≠ 16 then false
  else if cmd.grasping_forces.length ≠ 4 then false
  else if cmd.kp_gains.length ≠ 16 ∨ cmd.kd_gains.length ≠ 16 then false
  else if cmd.joint_positions.any fun pos => pos.isnan || pos.isinf then false
  else if cmd.desired_positions.any fun pos => pos.isnan || pos.isinf then false
  else if cmd.grasping_forces.any fun force => force.isnan || force.isinf then false
  else if cmd.time_interval.flt (.fin 0) || cmd.time_interval.isnan
       || cmd.time_interval.isinf then false
  else true

/-- Standalone `validateMotionType` (build.sh test copy, lines 138-140;
identical to the inline range checks of the parser). -/
def validateMotionType (motionType : Int) : Bool :=
  decide (0 ≤ motionType) && decide (motionType < 14)

/-- Embeds `AllegroZmqJsonParser::validateJointPositions` (cpp lines 322-333). -/
def validateJointPositions (positions : List FloatVal) : Bool :=
  if positions.length ≠ MAX_DOF then false
  else positions.all fun pos =>
    !(pos.isnan || pos.isinf || pos.fabs.fgt (.fin (mkRat 628 100)))

/-- Embeds `AllegroZmqJsonParser::validateFingerForces` (cpp lines 336-347). -/
def validateFingerForces (forces : List FloatVal) : Bool :=
  if forces.length ≠ 4 then false
  else forces.all fun force =>
    !(force.isnan || force.isinf || force.fabs.fgt (.fin 100))

/-- Embeds `AllegroZmqJsonParser::validateGains` (cpp lines 350-367). -/
def validateGains (kp kd : List FloatVal) : Bool :=
  if kp.length ≠ 16 ∨ kd.length ≠ 16 then false
  else
    (kp.all fun gain =>
      !(gain.isnan || gain.isinf || gain.flt (.fin 0) || gain.fgt (.fin 10000))) &&
    (kd.all fun gain =>
      !(gain.isnan || gain.isinf || gain.flt (.fin 0) || gain.fgt (.fin 1000)))

/-- Embeds `AllegroZmqJsonParser::setMotionType` (cpp lines 267-277). -/
def AllegroZmqJsonParser.setMotionType (p : AllegroZmqJsonParser) (motionType : Int) :
    Bool × AllegroZmqJsonParser :=
  match p.pBHand with
  | none => (false, p)
  | some b =>
    if motionType < 0 ∨ 14 ≤ motionType then (false, p)
    else (true, { p with pBHand := some (b.SetMotionType motionType) })

/-- Embeds `AllegroZmqJsonParser::setDesiredJointPositions` (cpp lines 280-289):
copies into the parser's internal `desiredQ` array (the `BHand` session
itself is not touched here). -/
def AllegroZmqJsonParser.setDesiredJointPositions (p : AllegroZmqJsonParser)
    (positions : List FloatVal) : Bool × AllegroZmqJsonParser :=
  if p.pBHand.isNone || !validateJointPositions positions then (false, p)
  else
    let k := min positions.length MAX_DOF
    (true, { p with desiredQ := positions.take k ++ p.desiredQ.drop k })

/-- Embeds `AllegroZmqJsonParser::setGraspingForces` (cpp lines 292-299). -/
def AllegroZmqJsonParser.setGraspingForces (p : AllegroZmqJsonParser)
    (forces : List FloatVal) : Bool × AllegroZmqJsonParser :=
  match p.pBHand with
  | none => (false, p)
  | some b =>
    if !validateFingerForces forces then (false, p)
    else (true, { p with pBHand := some (b.SetGraspingForce (listToVec 4 forces)) })

/-- Embeds `AllegroZmqJsonParser::setGains` (cpp lines 302-310). -/
def AllegroZmqJsonParser.setGains (p : AllegroZmqJsonParser)
    (kp kd : List FloatVal) : Bool × AllegroZmqJsonParser :=
  match p.pBHand with
  | none => (false, p)
  | some b =>
    if !validateGains kp kd then (false, p)
    else (true, { p with pBHand := some (b.SetGainsEx (listToVec 16 kp) (listToVec 16 kd)) })

/-- Embeds `AllegroZmqJsonParser::updateControl` (cpp lines 313-319). -/
def AllegroZmqJsonParser.updateControl (p : AllegroZmqJsonParser) (time : FloatVal) :
    Bool × AllegroZmqJsonParser :=
  match p.pBHand with
  | none => (false, p)
  | some b =>
    (true, { p with currentTime := time, pBHand := some (b.UpdateControl time) })

/-- Steps 7-9 of `parseJsonAndExecute` (cpp lines 61-75): set gains when
both gain arrays are non-empty, then run one control update and build
the final response. -/
def execGainsAndUpdate (p3 : AllegroZmqJsonParser) (jsonCmd : AllegroJsonCommand) :
    AllegroZmqResponse × AllegroZmqJsonParser :=
  match (if !jsonCmd.kp_gains.isEmpty && !jsonCmd.kd_gains.isEmpty then
          p3.setGains jsonCmd.kp_gains jsonCmd.kd_gains
        else (true, p3)) with
  | (success4, p4) =>
    if !success4 then (createErrorResponse "Failed to set gains", p4)
    else
      match p4.updateControl (.fin 0) with
      | (success5, p5) =>
        if !success5 then (createErrorResponse "Failed to update control", p5)
        else (createSuccessResponse "JSON command executed successfully" [], p5)

/-- Step 6 of `parseJsonAndExecute` (cpp lines 56-59): forward a strictly
positive time interval to the session, then continue with the gains and
control-update steps. -/
def execTimeInterval (p2 : AllegroZmqJsonParser) (jsonCmd : AllegroJsonCommand) :
    AllegroZmqResponse × AllegroZmqJsonParser :=
  execGainsAndUpdate
    (if jsonCmd.time_interval.fgt (.fin 0) then
      { p2 with pBHand := p2.pBHand.map fun b => b.SetTimeInterval jsonCmd.time_interval }
    else p2) jsonCmd

/-- Step 5 of `parseJsonAndExecute` (cpp lines 41-54): the motion-type
switch — only case 11 (JOINT_PD) sets desired joint positions; every
other motion type takes no per-mode action. -/
def execMotionDispatch (p1 : AllegroZmqJsonParser) (jsonCmd : AllegroJsonCommand) :
    AllegroZmqResponse × AllegroZmqJsonParser :=
  match (if jsonCmd.motion_type = 11 then
          p1.setDesiredJointPositions jsonCmd.desired_positions
        else (true, p1)) with
  | (success2, p2) =>
    if !success2 then (createErrorResponse "Failed to set desired joint positions", p2)
    else execTimeInterval p2 jsonCmd

/-- Embeds `AllegroZmqJsonParser::parseJsonAndExecute` (cpp lines 21-80), the
body split into the helpers above following the statement sequence of
the source.  The `input` argument is the outcome of the vendored
text-level JSON parse of `jsonStr` (see the file header). -/
def AllegroZmqJsonParser.parseJsonAndExecute (p : AllegroZmqJsonParser)
    (input : Except String Json) : AllegroZmqResponse × AllegroZmqJsonParser :=
  if !p.isHandReady then (createErrorResponse "BHand not initialized", p)
  else
    match parseJsonCommand input with
    | .error e => (createErrorResponse ("JSON parsing error: " ++ e.what), p)
    | .ok jsonCmd =>
      if !validateJsonCommand jsonCmd then
        (createErrorResponse "Invalid JSON command structure", p)
      else
        match p.setMotionType jsonCmd.motion_type with
        | (success1, p1) =>
          if !success1 then (createErrorResponse "Failed to set motion type", p1)
          else execMotionDispatch p1 jsonCmd

/-- The `BHand` session a parser points at (callers below only use it
when the pointer is non-null). -/
def sessionOf (p : AllegroZmqJsonParser) : MockBHand :=
  p.pBHand.getD MockBHand.init

/-- A freshly constructed parser bound to a freshly constructed mock
session, as every test fixture builds it. -/
def initialSession : AllegroZmqJsonParser :=
  AllegroZmqJsonParser.construct (some MockBHand.init)

instance {ε α : Type} [DecidableEq ε] [DecidableEq α] : DecidableEq (Except ε α) :=
  fun x y =>
    match x, y with
    | .ok a, .ok b =>
      if h : a = b then .isTrue (by rw [h]) else .isFalse (by simp [h])
    | .error e, .error f =>
      if h : e = f then .isTrue (by rw [h]) else .isFalse (by simp [h])
    | .ok _, .error _ => .isFalse (by simp)
    | .error _, .ok _ => .isFalse (by simp)

/-- The C1 command document `{"motion_type":11, "desired_positions": D,
"grasping_forces":[0,0,0,0], "time_interval":0.003}` with
`D = [0.1, ..., 0.1]` (16 entries, all within the `±6.28` joint bound). -/
def pdCommandDoc : Json :=
  .obj [("motion_type", .num 11),
        ("desired_positions", .arr (List.replicate 16 (.num (mkRat 1 10)))),
        ("grasping_forces", .arr (List.replicate 4 (.num 0))),
        ("time_interval", .num (mkRat 3 1000))]

/-- Claim C1 (code bug witness): executing the JOINT_PD document with
desired positions `D = [0.1,...,0.1]` returns SUCCESS, and `D` is stored
in the parser's internal `desiredQ` buffer — but the hand-control
session's recorded desired-position vector stays all zeros, because
`parseJsonAndExecute` never calls `SetJointDesiredPosition` on the
session (only `ComputeJointTorques`, outside this call path, does).  The
repository's own tests (`testBasicJsonParsing`, `testFullWorkflow`)
assert that the session's vector equals `D` here, so the code
contradicts its own test suite. -/
theorem C1_pd_desired_positions_not_propagated :
    (initialSession.parseJsonAndExecute (.ok pdCommandDoc)).1.success = true ∧
    (initialSession.parseJsonAndExecute (.ok pdCommandDoc)).1.type = .RESP_SUCCESS ∧
    (initialSession.parseJsonAndExecute (.ok pdCommandDoc)).2.desiredQ
      = List.replicate 16 (.fin (mkRat 1 10)) ∧
    (∀ i : Fin 16,
      (sessionOf (initialSession.parseJsonAndExecute (.ok pdCommandDoc)).2).desired_positions i
        = .fin 0) ∧
    FloatVal.fin (mkRat 1 10) ≠ FloatVal.fin 0 := by
  decide

/-- The first C2 command: 3-finger grasp with forces `[5,7,6,0]`
(integration test `testGraspingWorkflow`, step 2). -/
def grasp3Doc : Json :=
  .obj [("motion_type", .num 5),
        ("joint_positions", .arr (List.replicate 16 (.num 0))),
        ("desired_positions", .arr (List.replicate 16 (.num 0))),
        ("grasping_forces", .arr [.num 5, .num 7, .num 6, .num 0]),
        ("time_interval", .num (mkRat 3 1000))]

/-- The second C2 command: 4-finger grasp with forces `[5,7,6,4]`. -/
def grasp4Doc : Json :=
  .obj [("motion_type", .num 6),
        ("joint_positions", .arr (List.replicate 16 (.num 0))),
        ("desired_positions", .arr (List.replicate 16 (.num 0))),
        ("grasping_forces", .arr [.num 5, .num 7, .num 6, .num 4]),
        ("time_interval", .num (mkRat 3 1000))]

/-- The session state after the two C2 grasp commands in sequence. -/
def graspRun1 : AllegroZmqResponse × AllegroZmqJsonParser :=
  initialSession.parseJsonAndExecute (.ok grasp3Doc)

/-- The state after the second grasp command. -/
def graspRun2 : AllegroZmqResponse × AllegroZmqJsonParser :=
  graspRun1.2.parseJsonAndExecute (.ok grasp4Doc)

/-- Claim C2 (code bug witness): the two grasp commands both return
SUCCESS and the session's motion type is updated to 5 and then 6, but
the session's recorded grasping-force vector stays `[0,0,0,0]` after
both commands — `parseJsonAndExecute` dispatches only on motion type 11
and never calls `setGraspingForces`/`SetGraspingForce`.  The
repository's own tests (`testGraspingWithForces`,
`testGraspingWorkflow`) assert the forces are propagated, so the code
contradicts its own test suite. -/
theorem C2_grasp_forces_not_propagated :
    graspRun1.1.success = true ∧ graspRun2.1.success = true ∧
    (sessionOf graspRun1.2).current_motion_type = 5 ∧
    (sessionOf graspRun2.2).current_motion_type = 6 ∧
    (∀ j : Fin 4, (sessionOf graspRun1.2).grasping_forces j = .fin 0) ∧
    (∀ j : Fin 4, (sessionOf graspRun2.2).grasping_forces j = .fin 0) ∧
    (sessionOf graspRun1.2).grasping_forces 0 ≠ .fin 5 ∧
    (sessionOf graspRun2.2).grasping_forces 3 ≠ .fin 4 := by
  decide

/-- The C3 command: `joint_positions` holds only 10 numbers (test
`testWrongArraySizes`). -/
def wrongSizeDoc : Json :=
  .obj [("motion_type", .num 11),
        ("joint_positions", .arr (List.replicate 10 (.num 0))),
        ("desired_positions", .arr (List.replicate 16 (.num 0))),
        ("grasping_forces", .arr (List.replicate 4 (.num 0))),
        ("time_interval", .num (mkRat 3 1000))]

/-- Claim C3 (code bug witness): a command whose `joint_positions` array
has 10 elements is NOT rejected: `jsonArrayToVector` zero-pads it to 16
during parsing, so the later size validation sees a 16-element array and
the command returns SUCCESS.  The repository's own test
`testWrongArraySizes` asserts failure here, so the code contradicts its
own test suite (the spec's §9 design note flags this padding-then-check
as likely-dead code). -/
theorem C3_wrong_size_array_accepted :
    jsonArrayToVector (.arr (List.replicate 10 (.num 0))) 16
      = .ok (List.replicate 16 (.fin 0)) ∧
    (initialSession.parseJsonAndExecute (.ok wrongSizeDoc)).1.success = true ∧
    (initialSession.parseJsonAndExecute (.ok wrongSizeDoc)).1.type = .RESP_SUCCESS ∧
    (initialSession.parseJsonAndExecute (.ok wrongSizeDoc)).1.message
      = "JSON command executed successfully" := by
  decide

/-- The out-of-range motion-type command of `testInvalidMotionType`. -/
def motion99Doc : Json :=
  .obj [("motion_type", .num 99),
        ("joint_positions", .arr (List.replicate 16 (.num 0))),
        ("desired_positions", .arr (List.replicate 16 (.num 0))),
        ("grasping_forces", .arr (List.replicate 4 (.num 0))),
        ("time_interval", .num (mkRat 3 1000))]

/-- Claim C6: `validateMotionType m` holds iff `0 ≤ m < 14`; 0 and 13
pass, −1 and 14 fail, and a JSON command with motion type 99 yields an
ERROR response ("Invalid JSON command structure", from the identical
range check in `validateJsonCommand`). -/
theorem C6_motion_type_validation :
    (∀ m : Int, validateMotionType m = true ↔ (0 ≤ m ∧ m < 14)) ∧
    validateMotionType 0 = true ∧ validateMotionType 13 = true ∧
    validateMotionType (-1) = false ∧ validateMotionType 14 = false ∧
    (initialSession.parseJsonAndExecute (.ok motion99Doc)).1.success = false ∧
    (initialSession.parseJsonAndExecute (.ok motion99Doc)).1.type = .RESP_ERROR ∧
    (initialSession.parseJsonAndExecute (.ok motion99Doc)).1.message
      = "Invalid JSON command structure" := by
  refine ⟨fun m => ?_, by decide, by decide, by decide, by decide,
    by decide, by decide, by decide⟩
  simp [validateMotionType]

/-- Concrete instantiation of the C6 equivalence. -/
theorem C6_witness : validateMotionType 7 = true :=
  (C6_motion_type_validation.1 7).mpr (by decide)

/-- Claim C8: the mock session's control update sets
`torque[i] = kp[i] * (desired[i] - current[i])` for every joint; the
mock's defaults are `kp = 1.0`, `kd = 0.1`, zero position/torque/force
arrays and time interval 0.003; and with default gains, desired
positions 0.1 and current positions 0.0 the update commands torque 0.1
at every joint. -/
theorem C8_mock_torque_law :
    (∀ (b : MockBHand) (t : FloatVal) (i : Fin 16),
        (b.UpdateControl t).joint_torques i
          = (b.kp_gains i).fmul ((b.desired_positions i).fsub (b.joint_positions i))) ∧
    (∀ i : Fin 16, MockBHand.init.kp_gains i = .fin 1
      ∧ MockBHand.init.kd_gains i = .fin (mkRat 1 10)
      ∧ MockBHand.init.joint_positions i = .fin 0
      ∧ MockBHand.init.desired_positions i = .fin 0
      ∧ MockBHand.init.joint_torques i = .fin 0) ∧
    (∀ j : Fin 4, MockBHand.init.grasping_forces j = .fin 0) ∧
    MockBHand.init.time_interval = .fin (mkRat 3 1000) ∧
    MockBHand.init.current_motion_type = 0 ∧
    (∀ i : Fin 16,
      ((MockBHand.init.SetJointDesiredPosition fun _ => .fin (mkRat 1 10)).UpdateControl
          (.fin 0)).joint_torques i = .fin (mkRat 1 10)) := by
  refine ⟨fun b t i => rfl, by decide, by decide, by decide, by decide, fun i => ?_⟩
  show FloatVal.fmul (.fin 1) (FloatVal.fsub (.fin (mkRat 1 10)) (.fin 0))
      = .fin (mkRat 1 10)
  simp [FloatVal.fmul, FloatVal.fsub]

/-- The response component of a parse-and-execute call. -/
def responseOf (p : AllegroZmqJsonParser) (input : Except String Json) :
    AllegroZmqResponse :=
  (p.parseJsonAndExecute input).1

/-- Structural completeness of a response: the three joint-state arrays
have exactly 16 elements and the six fingertip/force arrays exactly 4,
all zero-filled. -/
def structurallyComplete (r : AllegroZmqResponse) : Prop :=
  r.qpos_measured = List.replicate 16 (.fin 0) ∧
  r.tau_commanded = List.replicate 16 (.fin 0) ∧
  r.qpos_commanded = List.replicate 16 (.fin 0) ∧
  r.fingertip_x = List.replicate 4 (.fin 0) ∧
  r.fingertip_y = List.replicate 4 (.fin 0) ∧
  r.fingertip_z = List.replicate 4 (.fin 0) ∧
  r.grasp_force_x = List.replicate 4 (.fin 0) ∧
  r.grasp_force_y = List.replicate 4 (.fin 0) ∧
  r.grasp_force_z = List.replicate 4 (.fin 0) ∧
  r.qpos_measured.length = 16 ∧
  r.tau_commanded.length = 16 ∧
  r.qpos_commanded.length = 16 ∧
  r.fingertip_x.length = 4 ∧
  r.fingertip_y.length = 4 ∧
  r.fingertip_z.length = 4 ∧
  r.grasp_force_x.length = 4 ∧
  r.grasp_force_y.length = 4 ∧
  r.grasp_force_z.length = 4

/-- Error responses are structurally complete. -/
theorem structurallyComplete_error (m : String) :
    structurallyComplete (createErrorResponse m) :=
  ⟨rfl, rfl, rfl, rfl, rfl, rfl, rfl, rfl, rfl,
   rfl, rfl, rfl, rfl, rfl, rfl, rfl, rfl, rfl⟩

/-- Success responses are structurally complete. -/
theorem structurallyComplete_success (m : String) (d : List FloatVal) :
    structurallyComplete (createSuccessResponse m d) :=
  ⟨rfl, rfl, rfl, rfl, rfl, rfl, rfl, rfl, rfl,
   rfl, rfl, rfl, rfl, rfl, rfl, rfl, rfl, rfl⟩

/-- The gains/update tail produces structurally complete responses. -/
theorem structurallyComplete_execGainsAndUpdate (p3 : AllegroZmqJsonParser)
    (jsonCmd : AllegroJsonCommand) :
    structurallyComplete (execGainsAndUpdate p3 jsonCmd).1 := by
  unfold execGainsAndUpdate
  repeat' split
  all_goals first
    | exact structurallyComplete_error _
    | exact structurallyComplete_success _ _

/-- The time-interval step produces structurally complete responses. -/
theorem structurallyComplete_execTimeInterval (p2 : AllegroZmqJsonParser)
    (jsonCmd : AllegroJsonCommand) :
    structurallyComplete (execTimeInterval p2 jsonCmd).1 :=
  structurallyComplete_execGainsAndUpdate _ _

/-- The motion-type dispatch produces structurally complete responses. -/
theorem structurallyComplete_execMotionDispatch (p1 : AllegroZmqJsonParser)
    (jsonCmd : AllegroJsonCommand) :
    structurallyComplete (execMotionDispatch p1 jsonCmd).1 := by
  unfold execMotionDispatch
  repeat' split
  all_goals first
    | exact structurallyComplete_error _
    | exact structurallyComplete_execTimeInterval _ _

/-- Claim C9: every response produced by `parseJsonAndExecute` — success
or error — is structurally complete: `qpos_measured`, `tau_commanded`
and `qpos_commanded` have exactly 16 elements and the fingertip and
grasp-force arrays exactly 4, every element `0.0` (no call path
populates them). -/
theorem C9_response_structurally_complete (p : AllegroZmqJsonParser)
    (input : Except String Json) :
    structurallyComplete (responseOf p input) := by
  unfold responseOf AllegroZmqJsonParser.parseJsonAndExecute
  repeat' split
  all_goals first
    | exact structurallyComplete_error _
    | exact structurallyComplete_execMotionDispatch _ _

/-- A single gain entry passes the range test of `validateGains` iff it
is a finite value within `[0, hi]`. -/
theorem gainEntryOk_iff (x : FloatVal) (hi : ℚ) :
    (!(x.isnan || x.isinf || x.flt (.fin 0) || x.fgt (.fin hi))) = true
      ↔ ∃ q : ℚ, x = .fin q ∧ 0 ≤ q ∧ q ≤ hi := by
  cases x <;>
    simp [FloatVal.isnan, FloatVal.isinf, FloatVal.flt, FloatVal.fgt,
      not_or, not_lt]

/-- Claim C7: `validateGains kp kd` accepts iff both vectors have exactly
16 elements, every `kp` entry is finite in `[0, 10000]` and every `kd`
entry is finite in `[0, 1000]`; the boundary values are accepted and
strictly out-of-range or non-finite values rejected. -/
theorem C7_gains_validation :
    (∀ kp kd : List FloatVal,
      validateGains kp kd = true ↔
        (kp.length = 16 ∧ kd.length = 16 ∧
         (∀ x ∈ kp, ∃ q : ℚ, x = .fin q ∧ 0 ≤ q ∧ q ≤ 10000) ∧
         (∀ x ∈ kd, ∃ q : ℚ, x = .fin q ∧ 0 ≤ q ∧ q ≤ 1000))) ∧
    validateGains (List.replicate 16 (.fin 0)) (List.replicate 16 (.fin 0)) = true ∧
    validateGains (List.replicate 16 (.fin 10000)) (List.replicate 16 (.fin 1000)) = true ∧
    validateGains (List.replicate 16 (.fin 10001)) (List.replicate 16 (.fin 0)) = false ∧
    validateGains (List.replicate 16 (.fin 0)) (List.replicate 16 (.fin 1001)) = false ∧
    validateGains (List.replicate 16 (.fin (-1))) (List.replicate 16 (.fin 0)) = false ∧
    validateGains (List.replicate 16 .nan) (List.replicate 16 (.fin 0)) = false ∧
    validateGains (List.replicate 15 (.fin 1)) (List.replicate 16 (.fin 0)) = false := by
  refine ⟨fun kp kd => ?_, by decide, by decide, by decide, by decide,
    by decide, by decide, by decide⟩
  unfold validateGains
  split
  · rename_i h
    simp only [Bool.false_eq_true, false_iff]
    rintro ⟨h1, h2, -, -⟩
    rcases h with h | h <;> exact h (by assumption)
  · rename_i h
    push_neg at h
    constructor
    · intro hv
      rw [Bool.and_eq_true, List.all_eq_true, List.all_eq_true] at hv
      exact ⟨h.1, h.2,
        fun x hx => (gainEntryOk_iff x 10000).mp (hv.1 x hx),
        fun x hx => (gainEntryOk_iff x 1000).mp (hv.2 x hx)⟩
    · rintro ⟨-, -, h1, h2⟩
      rw [Bool.and_eq_true, List.all_eq_true, List.all_eq_true]
      exact ⟨fun x hx => (gainEntryOk_iff x 10000).mpr (h1 x hx),
        fun x hx => (gainEntryOk_iff x 1000).mpr (h2 x hx)⟩

/-- Concrete instantiation of the C7 equivalence. -/
theorem C7_witness :
    (List.replicate 16 (FloatVal.fin 2)).length = 16 ∧
    (List.replicate 16 (FloatVal.fin 1)).length = 16 ∧
    (∀ x ∈ List.replicate 16 (FloatVal.fin 2),
      ∃ q : ℚ, x = .fin q ∧ 0 ≤ q ∧ q ≤ 10000) ∧
    (∀ x ∈ List.replicate 16 (FloatVal.fin 1),
      ∃ q : ℚ, x = .fin q ∧ 0 ≤ q ∧ q ≤ 1000) :=
  (C7_gains_validation.1 _ _).mp (by decide)

/-- Whether a JSON value is an array. -/
def Json.isArr : Json → Bool
  | .arr _ => true
  | _ => false

/-- Whether a JSON value is the null literal. -/
def Json.isNull : Json → Bool
  | .null => true
  | _ => false

/-- Claim C4, counterexample: the claim says a non-array value is
treated as empty and padded to N zeros; in fact `jsonArrayToVector`
raises the `std::runtime_error` "Expected JSON array" for any non-null
non-array value, here the number 5 at requested size 4. -/
theorem C4_counterexample :
    jsonArrayToVector (Json.num 5) 4 ≠ .ok (List.replicate 4 (.fin 0)) ∧
    jsonArrayToVector (Json.num 5) 4
      = .error (.runtimeError "Expected JSON array") := by
  exact ⟨by decide, by decide⟩

/-- The element conversion turns a list of numbers into the same list of
finite doubles. -/
theorem map_jsonElemToFloat_num (qs : List ℚ) :
    (qs.map Json.num).map jsonElemToFloat = qs.map FloatVal.fin := by
  induction qs with
  | nil => rfl
  | cons q qs ih => simp [jsonElemToFloat, ih]

/-- Claim C4, amended: for expected size N > 0, null converts to N
zeros; a non-null non-array value raises the "Expected JSON array" error
(instead of being treated as empty); an all-number array of exactly
length N is returned unchanged; a shorter one is zero-padded at the
tail; a longer one is truncated to N; non-numeric elements become 0.0;
and `[1,2,3,4]` at size 6 gives `[1,2,3,4,0,0]`. -/
theorem C4_array_conversion :
    (∀ n : Int, 0 < n →
      jsonArrayToVector Json.null n = .ok (List.replicate n.toNat (.fin 0))) ∧
    (∀ (v : Json) (n : Int), v.isNull = false → v.isArr = false →
      jsonArrayToVector v n = .error (.runtimeError "Expected JSON array")) ∧
    (∀ (qs : List ℚ) (n : Int), 0 < n → qs.length = n.toNat →
      jsonArrayToVector (.arr (qs.map Json.num)) n = .ok (qs.map FloatVal.fin)) ∧
    (∀ (qs : List ℚ) (n : Int), 0 < n → qs.length < n.toNat →
      jsonArrayToVector (.arr (qs.map Json.num)) n
        = .ok (qs.map FloatVal.fin
            ++ List.replicate (n.toNat - qs.length) (.fin 0))) ∧
    (∀ (qs : List ℚ) (n : Int), 0 < n → n.toNat < qs.length →
      jsonArrayToVector (.arr (qs.map Json.num)) n
        = .ok ((qs.map FloatVal.fin).take n.toNat)) ∧
    jsonArrayToVector (.arr [.num 1, .str "x", .bool true, .null]) 4
      = .ok [.fin 1, .fin 0, .fin 0, .fin 0] ∧
    jsonArrayToVector (.arr [.num 1, .num 2, .num 3, .num 4]) 6
      = .ok [.fin 1, .fin 2, .fin 3, .fin 4, .fin 0, .fin 0] := by
  refine ⟨fun n hn => ?_, fun v n h0 h1 => ?_, fun qs n hn hlen => ?_,
    fun qs n hn hlen => ?_, fun qs n hn hlen => ?_, by decide, by decide⟩
  · simp [jsonArrayToVector, hn]
  · cases v <;> simp_all [Json.isNull, Json.isArr, jsonArrayToVector]
  · simp only [jsonArrayToVector, map_jsonElemToFloat_num, List.length_map]
    rw [if_neg fun hc => hc.2 hlen]
  · have hne : qs.length ≠ n.toNat := Nat.ne_of_lt hlen
    simp only [jsonArrayToVector, map_jsonElemToFloat_num, List.length_map,
      cppResize]
    rw [if_pos ⟨hn, by simpa using hne⟩]
    rw [List.take_of_length_le (by simpa using Nat.le_of_lt hlen)]
  · have hne : qs.length ≠ n.toNat := (Nat.ne_of_lt hlen).symm
    simp only [jsonArrayToVector, map_jsonElemToFloat_num, List.length_map,
      cppResize]
    rw [if_pos ⟨hn, by simpa using hne⟩]
    rw [Nat.sub_eq_zero_of_le (by simpa using Nat.le_of_lt hlen)]
    simp

/-- Concrete instantiations of every hypothesis-bearing part of the
amended C4 statement. -/
theorem C4_witness :
    jsonArrayToVector Json.null 16 = .ok (List.replicate 16 (.fin 0)) ∧
    jsonArrayToVector (Json.str "x") 16
      = .error (.runtimeError "Expected JSON array") ∧
    jsonArrayToVector (.arr ([(1:ℚ), 2].map Json.num)) 2
      = .ok ([(1:ℚ), 2].map FloatVal.fin) ∧
    jsonArrayToVector (.arr ([(1:ℚ), 2, 3, 4].map Json.num)) 6
      = .ok ([(1:ℚ), 2, 3, 4].map FloatVal.fin
          ++ List.replicate ((6:Int).toNat - [(1:ℚ), 2, 3, 4].length) (.fin 0)) ∧
    jsonArrayToVector (.arr ([(1:ℚ), 2, 3].map Json.num)) 2
      = .ok (([(1:ℚ), 2, 3].map FloatVal.fin).take (2:Int).toNat) :=
  ⟨C4_array_conversion.1 16 (by decide),
   C4_array_conversion.2.1 (Json.str "x") 16 (by decide) (by decide),
   C4_array_conversion.2.2.1 [1, 2] 2 (by decide) (by decide),
   C4_array_conversion.2.2.2.1 [1, 2, 3, 4] 6 (by decide) (by decide),
   C4_array_conversion.2.2.2.2.1 [1, 2, 3] 2 (by decide) (by decide)⟩

/-- The structurally valid HOME command document used by the
error-recovery integration test. -/
def homeDoc : Json :=
  .obj [("motion_type", .num 1),
        ("joint_positions", .arr (List.replicate 16 (.num 0))),
        ("desired_positions", .arr (List.replicate 16 (.num 0))),
        ("grasping_forces", .arr (List.replicate 4 (.num 0))),
        ("time_interval", .num (mkRat 3 1000))]

/-- Claim C5: malformed JSON text (text-level parse failure with
diagnostic `msg`) yields a failure response whose message is
"JSON parsing error: JSON parse error: " followed by the diagnostic —
in particular it contains "JSON parsing error" — the whole parser and
session state is left exactly as it was, and a subsequent HOME command
on that same state succeeds and sets the session's motion type to 1. -/
theorem C5_malformed_json_recovery :
    ∀ (p : AllegroZmqJsonParser) (msg : String), p.pBHand.isSome = true →
      (responseOf p (.error msg)).success = false ∧
      (responseOf p (.error msg)).type = .RESP_ERROR ∧
      (responseOf p (.error msg)).message
        = "JSON parsing error: " ++ ("JSON parse error: " ++ msg) ∧
      (p.parseJsonAndExecute (.error msg)).2 = p ∧
      (responseOf (p.parseJsonAndExecute (.error msg)).2 (.ok homeDoc)).success = true ∧
      (responseOf (p.parseJsonAndExecute (.error msg)).2 (.ok homeDoc)).type
        = .RESP_SUCCESS ∧
      (sessionOf ((p.parseJsonAndExecute (.error msg)).2.parseJsonAndExecute
          (.ok homeDoc)).2).current_motion_type = 1 := by
  intro p msg h
  obtain ⟨pb, t, cq, dq, ct⟩ := p
  obtain ⟨b, hb⟩ : ∃ b, pb = some b := Option.isSome_iff_exists.mp h
  subst hb
  exact ⟨rfl, rfl, rfl, rfl, rfl, rfl, rfl⟩

/-- Concrete instantiation of C5 at a fresh session and the diagnostic
nlohmann emits for `"{invalid json"`. -/
theorem C5_witness :
    (responseOf initialSession (.error "syntax error while parsing object key")).success
      = false ∧
    (responseOf initialSession (.error "syntax error while parsing object key")).message
      = "JSON parsing error: "
        ++ ("JSON parse error: " ++ "syntax error while parsing object key") ∧
    (responseOf (initialSession.parseJsonAndExecute
        (.error "syntax error while parsing object key")).2 (.ok homeDoc)).success
      = true := by
  have h := C5_malformed_json_recovery initialSession
    "syntax error while parsing object key" (by decide)
  exact ⟨h.1, h.2.2.1, h.2.2.2.2.1⟩

/-- A message built from the fixed JSON-parsing-error prefix can never be
the motion-type failure message. -/
theorem jsonParsingMsg_ne (s : String) :
    "JSON parsing error: " ++ s ≠ "Failed to set motion type" := by
  obtain ⟨data⟩ := s
  intro h
  have h2 : ("JSON parsing error: ".data ++ data) = "Failed to set motion type".data :=
    congrArg String.data h
  have h3 := congrArg (fun l => l.head?) h2
  simp at h3

/-- A validated command's motion type is in `[0, 14)`. -/
theorem validate_motion_range {cmd : AllegroJsonCommand}
    (hv : validateJsonCommand cmd = true) :
    ¬(cmd.motion_type < 0 ∨ 14 ≤ cmd.motion_type) := by
  intro hc
  unfold validateJsonCommand at hv
  rw [if_pos hc] at hv
  exact Bool.false_ne_true hv

/-- Embeds `setMotionType` succeeds on every validated command when the session
pointer is non-null. -/
theorem setMotionType_succeeds (cmd : AllegroJsonCommand) (p : AllegroZmqJsonParser)
    (hv : validateJsonCommand cmd = true) (hp : p.pBHand.isSome = true) :
    (p.setMotionType cmd.motion_type).1 = true := by
  obtain ⟨b, hb⟩ := Option.isSome_iff_exists.mp hp
  simp only [AllegroZmqJsonParser.setMotionType, hb]
  rw [if_neg (validate_motion_range hv)]

/-- The gains/update tail never emits the motion-type failure message. -/
theorem execGainsAndUpdate_msg (p3 : AllegroZmqJsonParser)
    (jsonCmd : AllegroJsonCommand) :
    (execGainsAndUpdate p3 jsonCmd).1.message ≠ "Failed to set motion type" := by
  unfold execGainsAndUpdate
  repeat' split
  all_goals first
    | exact (by decide : ("Failed to set gains" : String) ≠ "Failed to set motion type")
    | exact (by decide :
        ("Failed to update control" : String) ≠ "Failed to set motion type")
    | exact (by decide :
        ("JSON command executed successfully" : String) ≠ "Failed to set motion type")

/-- The time-interval step never emits the motion-type failure message. -/
theorem execTimeInterval_msg (p2 : AllegroZmqJsonParser)
    (jsonCmd : AllegroJsonCommand) :
    (execTimeInterval p2 jsonCmd).1.message ≠ "Failed to set motion type" :=
  execGainsAndUpdate_msg _ _

/-- The motion dispatch never emits the motion-type failure message. -/
theorem execMotionDispatch_msg (p1 : AllegroZmqJsonParser)
    (jsonCmd : AllegroJsonCommand) :
    (execMotionDispatch p1 jsonCmd).1.message ≠ "Failed to set motion type" := by
  unfold execMotionDispatch
  repeat' split
  all_goals first
    | exact (by decide :
        ("Failed to set desired joint positions" : String) ≠ "Failed to set motion type")
    | exact execTimeInterval_msg _ _

/-- Claim C10: the "Failed to set motion type" error branch is
unreachable — `setMotionType` returns true for every command that passed
`validateJsonCommand` while the session pointer is non-null, and no
input whatsoever makes `parseJsonAndExecute` answer with that message. -/
theorem C10_failed_motion_type_unreachable :
    (∀ (cmd : AllegroJsonCommand) (p : AllegroZmqJsonParser),
      validateJsonCommand cmd = true → p.pBHand.isSome = true →
      (p.setMotionType cmd.motion_type).1 = true) ∧
    (∀ (p : AllegroZmqJsonParser) (input : Except String Json),
      (responseOf p input).message ≠ "Failed to set motion type") := by
  refine ⟨fun cmd p hv hp => setMotionType_succeeds cmd p hv hp, fun p input => ?_⟩
  unfold responseOf AllegroZmqJsonParser.parseJsonAndExecute
  split
  · exact (by decide : ("BHand not initialized" : String) ≠ "Failed to set motion type")
  rename_i hready
  split
  · exact jsonParsingMsg_ne _
  rename_i jsonCmd heq
  split
  · exact (by decide :
      ("Invalid JSON command structure" : String) ≠ "Failed to set motion type")
  rename_i hvld
  split
  rename_i success1 p1 heq2
  split
  · rename_i hfail
    have hv : validateJsonCommand jsonCmd = true := by
      revert hvld
      cases validateJsonCommand jsonCmd <;> simp
    have hr : p.pBHand.isSome = true := by
      revert hready
      unfold AllegroZmqJsonParser.isHandReady
      cases hs : p.pBHand.isSome <;> simp
    have hs := setMotionType_succeeds jsonCmd p hv hr
    rw [heq2] at hs
    have hs2 : success1 = true := hs
    rw [hs2] at hfail
    exact absurd hfail (by decide)
  · exact execMotionDispatch_msg _ _

/-- Concrete instantiation of C10 at the default command and a fresh
session, plus one concrete run. -/
theorem C10_witness :
    (initialSession.setMotionType AllegroJsonCommand.default.motion_type).1 = true ∧
    (responseOf initialSession (.error "bad")).message ≠ "Failed to set motion type" :=
  ⟨C10_failed_motion_type_unreachable.1 AllegroJsonCommand.default initialSession
      (by decide) (by decide),
   C10_failed_motion_type_unreachable.2 initialSession (.error "bad")⟩
